import Mathlib

/-!
Verification development for the WhatsApp/Claude agent core: a shallow
embedding of the permission arbitration, session lifecycle and command
handling code, with theorems checking the natural-language specification
against it.
-/

namespace WCA

/-- The five permission modes (src/types.ts, PermissionModeSchema). -/
inductive PermissionMode where
  | default
  | acceptEdits
  | bypassPermissions
  | plan
  | dontAsk
  deriving DecidableEq, Repr

/-- Translated from src/claude/backend.ts, isDestructiveTool: membership in the
fixed list of tool names the code treats as destructive. -/
def isDestructiveTool (toolName : String) : Bool :=
  ["Write", "Edit", "Bash", "NotebookEdit", "TodoWrite"].contains toolName

/-- The two immediate behaviors a PermissionResult can carry
(allow with updated input, or deny with a message). -/
inductive ToolBehavior where
  | allow
  | deny (message : String)
  deriving DecidableEq, Repr

/-- The environment handleToolPermission runs in: whether a permission callback
is registered (onPermissionRequest) and, if it is awaited, the boolean it
returns. -/
structure PermCtx where
  hasCallback : Bool
  callbackResult : Bool
  deriving DecidableEq, Repr

/-- The observable outcome of handleToolPermission: whether the permission
callback was awaited, and the behavior finally returned. -/
structure PermOutcome where
  asked : Bool
  result : ToolBehavior
  deriving DecidableEq, Repr

/-- Translated from src/claude/sdk-backend.ts, SDKBackend.handleToolPermission:
the if-chain over the current mode and tool classification. -/
def handleToolPermission (mode : PermissionMode) (toolName : String)
    (ctx : PermCtx) : PermOutcome :=
  if mode = .bypassPermissions then
    { asked := false, result := .allow }
  else if mode = .plan ∧ isDestructiveTool toolName then
    { asked := false, result := .deny "Destructive tools not allowed in plan mode" }
  else if mode = .acceptEdits ∧
      (toolName = "Edit" ∨ toolName = "Write" ∨ toolName = "NotebookEdit") then
    { asked := false, result := .allow }
  else if mode = .dontAsk ∧ isDestructiveTool toolName then
    { asked := false, result := .deny "Tool not pre-approved in dontAsk mode" }
  else if mode = .default ∧ isDestructiveTool toolName then
    if ctx.hasCallback then
      { asked := true,
        result := if ctx.callbackResult then .allow else .deny "User denied permission" }
    else
      { asked := false, result := .deny "No permission handler registered" }
  else
    { asked := false, result := .allow }

/-- An allow/ask/deny decision, the codomain of the spec decision table. -/
inductive Decision where
  | allow
  | ask
  | deny
  deriving DecidableEq, Repr

/-- The edit-class tools named by spec section 4.4: Edit, Write, NotebookEdit. -/
def isEditClassTool (toolName : String) : Bool :=
  toolName == "Edit" || toolName == "Write" || toolName == "NotebookEdit"

/-- Modelled from the spec: the decision table of spec section 4.4
(ModePolicy.decide), written from the words of the spec so it can be compared
with the decision the code takes (claim C1). -/
def specModeDecide (mode : PermissionMode) (toolName : String) : Decision :=
  match mode with
  | .bypassPermissions => .allow
  | .plan => if isDestructiveTool toolName then .deny else .allow
  | .acceptEdits =>
      if isEditClassTool toolName then .allow
      else if isDestructiveTool toolName then .ask
      else .allow
  | .dontAsk => if isDestructiveTool toolName then .deny else .allow
  | .default => if isDestructiveTool toolName then .ask else .allow

/-- The allow/ask/deny decision the code actually takes for a tool, read off
handleToolPermission with a registered permission callback: a branch that
awaits the callback is an ask; otherwise the immediate behavior. -/
def codeDecision (mode : PermissionMode) (toolName : String) : Decision :=
  let o := handleToolPermission mode toolName { hasCallback := true, callbackResult := true }
  if o.asked then .ask
  else
    match o.result with
    | .allow => .allow
    | .deny _ => .deny

theorem isEditClassTool_eq_true_iff (t : String) :
    isEditClassTool t = true ↔ (t = "Edit" ∨ t = "Write" ∨ t = "NotebookEdit") := by
  simp [isEditClassTool, or_assoc]

theorem isDestructiveTool_eq_true_iff (t : String) :
    isDestructiveTool t = true ↔
      (t = "Write" ∨ t = "Edit" ∨ t = "Bash" ∨ t = "NotebookEdit" ∨ t = "TodoWrite") := by
  simp [isDestructiveTool]

/-- C1: the decision function agrees with the table of spec section 4.4 on every
mode and tool, except on the acceptEdits row at destructive non-edit-class
tools (such as Bash), where the code falls through to its final allow branch
and returns allow without asking, while the table says ask. -/
theorem codeDecision_vs_specModeDecide (mode : PermissionMode) (toolName : String) :
    codeDecision mode toolName = specModeDecide mode toolName ∨
      (mode = .acceptEdits ∧ isDestructiveTool toolName = true ∧
        isEditClassTool toolName = false ∧
        codeDecision mode toolName = .allow ∧ specModeDecide mode toolName = .ask) := by
  cases mode
  case bypassPermissions =>
    left
    simp [codeDecision, handleToolPermission, specModeDecide]
  case plan =>
    left
    by_cases hd : isDestructiveTool toolName = true <;>
      simp [codeDecision, handleToolPermission, specModeDecide, hd]
  case dontAsk =>
    left
    by_cases hd : isDestructiveTool toolName = true <;>
      simp [codeDecision, handleToolPermission, specModeDecide, hd]
  case default =>
    left
    by_cases hd : isDestructiveTool toolName = true <;>
      simp [codeDecision, handleToolPermission, specModeDecide, hd]
  case acceptEdits =>
    by_cases he : isEditClassTool toolName = true
    · left
      have he' := (isEditClassTool_eq_true_iff toolName).mp he
      simp [codeDecision, handleToolPermission, specModeDecide, he, he']
    · have he' : ¬ (toolName = "Edit" ∨ toolName = "Write" ∨ toolName = "NotebookEdit") :=
        fun h => he ((isEditClassTool_eq_true_iff toolName).mpr h)
      by_cases hd : isDestructiveTool toolName = true
      · right
        refine ⟨rfl, hd, by simpa using he, ?_, ?_⟩
        · simp [codeDecision, handleToolPermission, he']
        · simp [specModeDecide, by simpa using he, hd]
      · left
        simp [codeDecision, handleToolPermission, specModeDecide, he', hd,
          by simpa using he]

/-- C10: the destructive classification is exactly the five names Write, Edit,
Bash, NotebookEdit, TodoWrite, and in particular TodoWrite is classified
destructive, so it is asked about in default mode and denied in plan and
dontAsk modes. -/
theorem isDestructiveTool_characterization :
    (∀ t : String, isDestructiveTool t = true ↔
      (t = "Write" ∨ t = "Edit" ∨ t = "Bash" ∨ t = "NotebookEdit" ∨ t = "TodoWrite")) ∧
    codeDecision .default "TodoWrite" = .ask ∧
    codeDecision .plan "TodoWrite" = .deny ∧
    codeDecision .dontAsk "TodoWrite" = .deny := by
  refine ⟨isDestructiveTool_eq_true_iff, ?_, ?_, ?_⟩ <;> decide

/-- Translated from src/claude/permissions.ts: DEFAULT_TIMEOUT_MS, the default
permission timeout (five minutes in milliseconds). -/
def DEFAULT_TIMEOUT_MS : Nat := 300000

/-- State of the PermissionManager (src/claude/permissions.ts). The Map of
pending requests is modelled as the list of request ids in insertion order (a
JavaScript Map iterates in insertion order); `outcomes` is the log of promise
outcomes, recording for each request id the boolean its awaited promise settled
to; `nextId` is a counter supplying the fresh ids that requestPermission
generates (the source builds ids from a timestamp and a random suffix and
relies on their uniqueness). -/
structure ArbiterState where
  pending : List Nat
  outcomes : List (Nat × Bool)
  nextId : Nat
  deriving DecidableEq, Repr

/-- Settling a promise: a JavaScript promise resolves at most once, so a second
resolution of the same request id leaves the recorded outcome unchanged. -/
def recordOutcome (outcomes : List (Nat × Bool)) (id : Nat) (b : Bool) :
    List (Nat × Bool) :=
  if (outcomes.lookup id).isSome then outcomes else (id, b) :: outcomes

/-- The boolean a request's awaited promise settled to, if it has settled. -/
def outcomeOf (s : ArbiterState) (id : Nat) : Option Bool :=
  s.outcomes.lookup id

/-- Translated from src/claude/permissions.ts, PermissionManager.requestPermission
(the synchronous part): register a fresh pending request. The timeout it
schedules is modelled by the separate `timerFire` event below. -/
def requestPermission (s : ArbiterState) : ArbiterState × Nat :=
  ({ pending := s.pending ++ [s.nextId], outcomes := s.outcomes, nextId := s.nextId + 1 },
   s.nextId)

/-- Translated from src/claude/permissions.ts: the per-request resolve closure,
which deletes the request from the registry and then settles its promise. -/
def resolveRequest (id : Nat) (allowed : Bool) (s : ArbiterState) : ArbiterState :=
  { s with pending := s.pending.erase id,
           outcomes := recordOutcome s.outcomes id allowed }

/-- Translated from src/claude/permissions.ts, PermissionManager.resolvePermission:
resolve a pending request by id; returns false (state unchanged) when no
pending request has that id. -/
def resolvePermission (id : Nat) (allowed : Bool) (s : ArbiterState) :
    Bool × ArbiterState :=
  if id ∈ s.pending then (true, resolveRequest id allowed s) else (false, s)

/-- Models the JavaScript String.prototype.trim call: drop whitespace from both
ends, over the character list. -/
def jsTrim (s : String) : String :=
  String.mk (((s.data.dropWhile Char.isWhitespace).reverse.dropWhile
    Char.isWhitespace).reverse)

/-- Models the JavaScript String.prototype.toUpperCase call, character by
character (the keywords being matched are ASCII). -/
def jsToUpperCase (s : String) : String :=
  String.mk (s.data.map Char.toUpper)

/-- Translated from src/claude/permissions.ts,
PermissionManager.tryResolveFromMessage: normalize the text, recognize the
yes/no keywords, and resolve the last (most recently created) pending request. -/
def tryResolveFromMessage (message : String) (s : ArbiterState) :
    Bool × ArbiterState :=
  let trimmed := jsToUpperCase (jsTrim message)
  let isYes := trimmed == "Y" || trimmed == "YES" || trimmed == "ALLOW"
  let isNo := trimmed == "N" || trimmed == "NO" || trimmed == "DENY"
  if !isYes && !isNo then (false, s)
  else
    match s.pending.getLast? with
    | none => (false, s)
    | some latest => (true, resolveRequest latest isYes s)

/-- Translated from src/claude/permissions.ts: the timeout callback scheduled by
requestPermission, firing for request `id` after the configured duration: if
the request is still pending it is deleted and its promise settles to false. -/
def timerFire (id : Nat) (s : ArbiterState) : ArbiterState :=
  if id ∈ s.pending then
    { s with pending := s.pending.erase id,
             outcomes := recordOutcome s.outcomes id false }
  else s

/-- Translated from src/claude/permissions.ts, PermissionManager.cancelAll:
resolve every pending request to false and clear the registry. -/
def cancelAll (s : ArbiterState) : ArbiterState :=
  { pending := [],
    outcomes := s.pending.foldl (fun os i => recordOutcome os i false) s.outcomes,
    nextId := s.nextId }

/-- Translated from src/claude/permissions.ts, PermissionManager.pendingCount. -/
def pendingCount (s : ArbiterState) : Nat :=
  s.pending.length

/-- Well-formedness of an arbiter state, maintained by every operation: pending
ids are distinct and unsettled, and ids below `nextId` are the only ones ever
used. -/
def ArbiterWF (s : ArbiterState) : Prop :=
  s.pending.Nodup ∧
  (∀ id ∈ s.pending, s.outcomes.lookup id = none) ∧
  (∀ id ∈ s.pending, id < s.nextId) ∧
  (∀ p ∈ s.outcomes, p.1 < s.nextId)

instance (s : ArbiterState) : Decidable (ArbiterWF s) := by
  unfold ArbiterWF
  infer_instance

theorem lookup_recordOutcome_self {os : List (Nat × Bool)} {id : Nat} {b : Bool}
    (h : os.lookup id = none) : (recordOutcome os id b).lookup id = some b := by
  simp [recordOutcome, h, List.lookup]

theorem lookup_recordOutcome_ne {os : List (Nat × Bool)} {id j : Nat} {b : Bool}
    (h : j ≠ id) : (recordOutcome os id b).lookup j = os.lookup j := by
  have hbeq : (j == id) = false := beq_eq_false_iff_ne.mpr h
  unfold recordOutcome
  split
  · rfl
  · simp [List.lookup, hbeq]

theorem lookup_foldl_recordOutcome_ne {l : List Nat} {id : Nat}
    (h : ∀ x ∈ l, x ≠ id) (os : List (Nat × Bool)) :
    (l.foldl (fun os i => recordOutcome os i false) os).lookup id = os.lookup id := by
  induction l generalizing os with
  | nil => rfl
  | cons x xs ih =>
      have hx : x ≠ id := h x (List.mem_cons_self x xs)
      have hxs : ∀ y ∈ xs, y ≠ id := fun y hy => h y (List.mem_cons_of_mem x hy)
      simp only [List.foldl_cons]
      rw [ih hxs, lookup_recordOutcome_ne (Ne.symm hx)]

theorem lookup_none_of_bound {os : List (Nat × Bool)} {n : Nat}
    (h : ∀ p ∈ os, p.1 < n) : os.lookup n = none := by
  induction os with
  | nil => rfl
  | cons p ps ih =>
      have hp : p.1 < n := h p (List.mem_cons_self p ps)
      have hne : (n == p.1) = false := by
        simp only [beq_eq_false_iff_ne, ne_eq]
        exact fun he => absurd hp (by simp [he])
      simp only [List.lookup, hne]
      exact ih fun q hq => h q (List.mem_cons_of_mem p hq)

/-- The initial arbiter state (an empty registry) is well formed. -/
theorem ArbiterWF_init : ArbiterWF ⟨[], [], 0⟩ := by decide

theorem ArbiterWF_requestPermission {s : ArbiterState} (hw : ArbiterWF s) :
    ArbiterWF (requestPermission s).1 := by
  obtain ⟨hnd, hfresh, hlt, hout⟩ := hw
  refine ⟨?_, ?_, ?_, ?_⟩
  · show (s.pending ++ [s.nextId]).Nodup
    rw [List.nodup_append]
    refine ⟨hnd, List.nodup_singleton _, ?_⟩
    intro a ha hmem
    have he : a = s.nextId := by simpa using hmem
    exact absurd (hlt a ha) (by simp [he])
  · intro id hid
    rcases List.mem_append.mp hid with h | h
    · exact hfresh id h
    · have he : id = s.nextId := by simpa using h
      subst he
      exact lookup_none_of_bound hout
  · intro id hid
    rcases List.mem_append.mp hid with h | h
    · exact Nat.lt_succ_of_lt (hlt id h)
    · have he : id = s.nextId := by simpa using h
      rw [he]
      exact Nat.lt_succ_self _
  · exact fun p hp => Nat.lt_succ_of_lt (hout p hp)

theorem ArbiterWF_resolveRequest {s : ArbiterState} {id : Nat} (hw : ArbiterWF s)
    (hm : id ∈ s.pending) (allowed : Bool) : ArbiterWF (resolveRequest id allowed s) := by
  obtain ⟨hnd, hfresh, hlt, hout⟩ := hw
  refine ⟨hnd.erase id, ?_, ?_, ?_⟩
  · intro j hj
    have hj' : j ∈ s.pending := List.mem_of_mem_erase hj
    have hjne : j ≠ id := by
      intro he
      subst he
      exact hnd.not_mem_erase hj
    show (recordOutcome s.outcomes id allowed).lookup j = none
    rw [lookup_recordOutcome_ne hjne]
    exact hfresh j hj'
  · exact fun j hj => hlt j (List.mem_of_mem_erase hj)
  · intro p hp
    simp only [resolveRequest] at hp
    unfold recordOutcome at hp
    split at hp
    · exact hout p hp
    · rcases List.mem_cons.mp hp with h | h
      · subst h
        exact hlt id hm
      · exact hout p h

theorem ArbiterWF_timerFire {s : ArbiterState} (hw : ArbiterWF s) (id : Nat) :
    ArbiterWF (timerFire id s) := by
  unfold timerFire
  split
  · exact ArbiterWF_resolveRequest hw (by assumption) false
  · exact hw

theorem ArbiterWF_resolvePermission {s : ArbiterState} (hw : ArbiterWF s)
    (id : Nat) (allowed : Bool) : ArbiterWF (resolvePermission id allowed s).2 := by
  unfold resolvePermission
  split
  · exact ArbiterWF_resolveRequest hw (by assumption) allowed
  · exact hw

theorem ArbiterWF_tryResolveFromMessage {s : ArbiterState} (hw : ArbiterWF s)
    (message : String) : ArbiterWF (tryResolveFromMessage message s).2 := by
  unfold tryResolveFromMessage
  rcases hl : s.pending.getLast? with _ | latest
  · simp only [hl]
    split
    · exact hw
    · exact hw
  · simp only [hl]
    split
    · exact hw
    · exact ArbiterWF_resolveRequest hw (List.mem_of_mem_getLast? hl) _

theorem ArbiterWF_cancelAll {s : ArbiterState} (hw : ArbiterWF s) :
    ArbiterWF (cancelAll s) := by
  obtain ⟨_, _, hlt, hout⟩ := hw
  refine ⟨List.nodup_nil, ?_, ?_, ?_⟩
  · intro i hi
    exact absurd hi (List.not_mem_nil i)
  · intro i hi
    exact absurd hi (List.not_mem_nil i)
  have main : ∀ (l : List Nat) (os : List (Nat × Bool)),
      (∀ x ∈ l, x < s.nextId) → (∀ p ∈ os, p.1 < s.nextId) →
      ∀ p ∈ l.foldl (fun os i => recordOutcome os i false) os, p.1 < s.nextId := by
    intro l
    induction l with
    | nil => intro os _ hos p hp; exact hos p hp
    | cons x xs ih =>
        intro os hl hos p hp
        simp only [List.foldl_cons] at hp
        refine ih _ (fun y hy => hl y (List.mem_cons_of_mem x hy)) ?_ p hp
        intro q hq
        unfold recordOutcome at hq
        split at hq
        · exact hos q hq
        · rcases List.mem_cons.mp hq with h | h
          · subst h
            exact hl x (List.mem_cons_self x xs)
          · exact hos q h
  exact main s.pending s.outcomes hlt hout

/-- If a request already has a settled outcome, it is no longer pending (in a
well-formed state). -/
theorem not_pending_of_outcome {s : ArbiterState} {id : Nat} {b : Bool}
    (hw : ArbiterWF s) (h : outcomeOf s id = some b) : id ∉ s.pending := by
  intro hm
  have := hw.2.1 id hm
  rw [outcomeOf, this] at h
  exact Option.noConfusion h

/-- C3: tryResolveFromMessage trims and uppercases the text; on Y/YES/ALLOW it
resolves the most recently created still-pending request to true and returns
true; on N/NO/DENY it resolves that request to false and returns true; on any
other text, or when nothing is pending, it resolves nothing and returns false. -/
theorem tryResolveFromMessage_spec (s : ArbiterState) (msg : String)
    (hw : ArbiterWF s) :
    (∀ latest,
      (jsToUpperCase (jsTrim msg) = "Y" ∨ jsToUpperCase (jsTrim msg) = "YES" ∨ jsToUpperCase (jsTrim msg) = "ALLOW") →
      s.pending.getLast? = some latest →
      (tryResolveFromMessage msg s).1 = true ∧
      outcomeOf (tryResolveFromMessage msg s).2 latest = some true ∧
      latest ∉ (tryResolveFromMessage msg s).2.pending) ∧
    (∀ latest,
      (jsToUpperCase (jsTrim msg) = "N" ∨ jsToUpperCase (jsTrim msg) = "NO" ∨ jsToUpperCase (jsTrim msg) = "DENY") →
      s.pending.getLast? = some latest →
      (tryResolveFromMessage msg s).1 = true ∧
      outcomeOf (tryResolveFromMessage msg s).2 latest = some false ∧
      latest ∉ (tryResolveFromMessage msg s).2.pending) ∧
    (jsToUpperCase (jsTrim msg) ∉ (["Y", "YES", "ALLOW", "N", "NO", "DENY"] : List String) →
      tryResolveFromMessage msg s = (false, s)) ∧
    (s.pending = [] → tryResolveFromMessage msg s = (false, s)) := by
  refine ⟨?_, ?_, ?_, ?_⟩
  · intro latest hy hl
    have hmem : latest ∈ s.pending := List.mem_of_mem_getLast? hl
    have hres : tryResolveFromMessage msg s = (true, resolveRequest latest true s) := by
      rcases hy with h | h | h <;>
        simp [tryResolveFromMessage, h, hl]
    refine ⟨by rw [hres], ?_, ?_⟩
    · rw [hres]
      exact lookup_recordOutcome_self (hw.2.1 latest hmem)
    · rw [hres]
      exact hw.1.not_mem_erase
  · intro latest hn hl
    have hmem : latest ∈ s.pending := List.mem_of_mem_getLast? hl
    have hres : tryResolveFromMessage msg s = (true, resolveRequest latest false s) := by
      rcases hn with h | h | h <;>
        simp [tryResolveFromMessage, h, hl]
    refine ⟨by rw [hres], ?_, ?_⟩
    · rw [hres]
      exact lookup_recordOutcome_self (hw.2.1 latest hmem)
    · rw [hres]
      exact hw.1.not_mem_erase
  · intro hno
    simp only [List.mem_cons, List.mem_singleton, not_or] at hno
    obtain ⟨h1, h2, h3, h4, h5, h6⟩ := hno
    simp [tryResolveFromMessage, h1, h2, h3, h4, h5, by simpa using h6]
  · intro hnil
    by_cases hkw : (jsToUpperCase (jsTrim msg) == "Y" || jsToUpperCase (jsTrim msg) == "YES" ||
        jsToUpperCase (jsTrim msg) == "ALLOW") = true ∨
        (jsToUpperCase (jsTrim msg) == "N" || jsToUpperCase (jsTrim msg) == "NO" ||
        jsToUpperCase (jsTrim msg) == "DENY") = true
    · have : s.pending.getLast? = none := by simp [hnil]
      unfold tryResolveFromMessage
      rcases hkw with h | h <;> simp [h, this]
    · push_neg at hkw
      unfold tryResolveFromMessage
      simp only [hkw.1, hkw.2]
      simp

/-- Witness for C3: with requests 0 and 1 pending (1 the most recent), the
reply " yes " resolves request 1 to true. -/
theorem tryResolveFromMessage_spec_witness :
    (tryResolveFromMessage " yes " ⟨[0, 1], [], 2⟩).1 = true ∧
    outcomeOf (tryResolveFromMessage " yes " ⟨[0, 1], [], 2⟩).2 1 = some true ∧
    1 ∉ (tryResolveFromMessage " yes " ⟨[0, 1], [], 2⟩).2.pending :=
  (tryResolveFromMessage_spec ⟨[0, 1], [], 2⟩ " yes " (by decide)).1 1
    (by right; left; decide) (by decide)

/-- C4: a request still pending when its timeout fires settles to false and is
removed from the registry, so pendingCount decreases by one; the default
timeout duration is five minutes. -/
theorem timerFire_denies (s : ArbiterState) (id : Nat) (hw : ArbiterWF s)
    (hm : id ∈ s.pending) :
    outcomeOf (timerFire id s) id = some false ∧
    id ∉ (timerFire id s).pending ∧
    pendingCount (timerFire id s) + 1 = pendingCount s ∧
    DEFAULT_TIMEOUT_MS = 5 * 60 * 1000 := by
  have hres : timerFire id s =
      { s with pending := s.pending.erase id,
               outcomes := recordOutcome s.outcomes id false } := by
    simp [timerFire, hm]
  refine ⟨?_, ?_, ?_, rfl⟩
  · rw [hres]
    exact lookup_recordOutcome_self (hw.2.1 id hm)
  · rw [hres]
    exact hw.1.not_mem_erase
  · rw [hres]
    simp only [pendingCount, List.length_erase_of_mem hm]
    exact Nat.succ_pred_eq_of_pos (List.length_pos_of_mem hm)

/-- Witness for C4: a single pending request 0 times out, settles to false, and
the registry empties. -/
theorem timerFire_denies_witness :
    outcomeOf (timerFire 0 ⟨[0], [], 1⟩) 0 = some false ∧
    0 ∉ (timerFire 0 ⟨[0], [], 1⟩).pending ∧
    pendingCount (timerFire 0 ⟨[0], [], 1⟩) + 1 = pendingCount ⟨[0], [], 1⟩ ∧
    DEFAULT_TIMEOUT_MS = 5 * 60 * 1000 :=
  timerFire_denies ⟨[0], [], 1⟩ 0 (by decide) (by decide)

/-- C5: a settled request stays settled with the same boolean: every later
resolution attempt, by id, by free text, by a timer firing, or by bulk
cancellation, leaves its outcome unchanged. -/
theorem resolution_is_permanent (s : ArbiterState) (hw : ArbiterWF s)
    (id : Nat) (b : Bool) (h : outcomeOf s id = some b) :
    (∀ j a, outcomeOf (resolvePermission j a s).2 id = some b) ∧
    (∀ msg, outcomeOf (tryResolveFromMessage msg s).2 id = some b) ∧
    (∀ j, outcomeOf (timerFire j s) id = some b) ∧
    outcomeOf (cancelAll s) id = some b := by
  have hnp : id ∉ s.pending := not_pending_of_outcome hw h
  refine ⟨?_, ?_, ?_, ?_⟩
  · intro j a
    unfold resolvePermission
    split
    · have hj : j ∈ s.pending := by assumption
      have hjne : j ≠ id := fun he => hnp (he ▸ hj)
      show outcomeOf (resolveRequest j a s) id = some b
      simp only [resolveRequest, outcomeOf]
      rw [lookup_recordOutcome_ne (Ne.symm hjne)]
      exact h
    · exact h
  · intro msg
    unfold tryResolveFromMessage
    rcases hl : s.pending.getLast? with _ | latest
    · simp only [hl]
      split
      · exact h
      · exact h
    · simp only [hl]
      split
      · exact h
      · have hmem : latest ∈ s.pending := List.mem_of_mem_getLast? hl
        have hne : latest ≠ id := fun he => hnp (he ▸ hmem)
        show outcomeOf (resolveRequest latest _ s) id = some b
        simp only [resolveRequest, outcomeOf]
        rw [lookup_recordOutcome_ne (Ne.symm hne)]
        exact h
  · intro j
    unfold timerFire
    split
    · have hj : j ∈ s.pending := by assumption
      have hjne : j ≠ id := fun he => hnp (he ▸ hj)
      show List.lookup id (recordOutcome s.outcomes j false) = some b
      rw [lookup_recordOutcome_ne (Ne.symm hjne)]
      exact h
    · exact h
  · have hall : ∀ x ∈ s.pending, x ≠ id := fun x hx he => hnp (he ▸ hx)
    simpa [cancelAll, outcomeOf, lookup_foldl_recordOutcome_ne hall] using h

/-- Witness for C5: request 0 already settled to true; a by-id attempt, a
free-text reply, a timer expiry and a bulk cancellation all leave it true. -/
theorem resolution_is_permanent_witness :
    outcomeOf (resolvePermission 0 false ⟨[], [(0, true)], 1⟩).2 0 = some true ∧
    outcomeOf (tryResolveFromMessage "N" ⟨[], [(0, true)], 1⟩).2 0 = some true ∧
    outcomeOf (timerFire 0 ⟨[], [(0, true)], 1⟩) 0 = some true ∧
    outcomeOf (cancelAll ⟨[], [(0, true)], 1⟩) 0 = some true :=
  ⟨(resolution_is_permanent ⟨[], [(0, true)], 1⟩ (by decide) 0 true (by decide)).1 0 false,
   (resolution_is_permanent ⟨[], [(0, true)], 1⟩ (by decide) 0 true (by decide)).2.1 "N",
   (resolution_is_permanent ⟨[], [(0, true)], 1⟩ (by decide) 0 true (by decide)).2.2.1 0,
   (resolution_is_permanent ⟨[], [(0, true)], 1⟩ (by decide) 0 true (by decide)).2.2.2⟩

/-- The runtime configuration object (src/types.ts, ConfigSchema), restricted
to the fields the conversation manager and backend read or write. -/
structure Config where
  whitelist : List String
  directory : String
  mode : PermissionMode
  model : String
  processMissed : Bool
  missedThresholdMins : Nat
  maxTurns : Option Nat
  agentName : String
  verbose : Bool
  systemPrompt : Option String
  systemPromptAppend : Option String
  settingSources : Option (List String)
  forkSession : Bool
  resumeSessionId : Option String
  deriving DecidableEq, Repr

/-- Translated from src/claude/backend.ts, ClaudeBackend.setSystemPrompt: store
the custom prompt and clear the append. -/
def setSystemPrompt (prompt : Option String) (c : Config) : Config :=
  { c with systemPrompt := prompt, systemPromptAppend := none }

/-- Translated from src/claude/backend.ts, ClaudeBackend.setSystemPromptAppend:
store the append text and clear the custom prompt. -/
def setSystemPromptAppend (text : Option String) (c : Config) : Config :=
  { c with systemPromptAppend := text, systemPrompt := none }

/-- Translated from src/claude/backend.ts, ClaudeBackend.setSettingSources. -/
def setSettingSources (sources : Option (List String)) (c : Config) : Config :=
  { c with settingSources := sources }

/-- C9: setting the system prompt clears the append and setting the append
clears the system prompt, so after either mutator at most one of the two
fields is set. -/
theorem systemPrompt_mutual_exclusivity :
    (∀ (c : Config) (p : String), (setSystemPrompt (some p) c).systemPromptAppend = none) ∧
    (∀ (c : Config) (t : String), (setSystemPromptAppend (some t) c).systemPrompt = none) ∧
    (∀ (c : Config) (v : Option String),
      (setSystemPrompt v c).systemPrompt = none ∨
      (setSystemPrompt v c).systemPromptAppend = none) ∧
    (∀ (c : Config) (v : Option String),
      (setSystemPromptAppend v c).systemPrompt = none ∨
      (setSystemPromptAppend v c).systemPromptAppend = none) :=
  ⟨fun _ _ => rfl, fun _ _ => rfl, fun _ _ => Or.inr rfl, fun _ _ => Or.inl rfl⟩

/-- State of the SDKBackend (src/claude/sdk-backend.ts): the shared
configuration object, the mode copy kept by ClaudeBackend, the current session
id and the one-shot fork flag. -/
structure SDKBackendState where
  config : Config
  mode : PermissionMode
  currentSessionId : Option String
  forkNext : Bool
  deriving DecidableEq, Repr

/-- Translated from src/claude/sdk-backend.ts, the SDKBackend constructor: the
fork flag comes from config.forkSession and the session id from
config.resumeSessionId. -/
def initSDKBackend (config : Config) : SDKBackendState :=
  { config := config, mode := config.mode,
    currentSessionId := config.resumeSessionId, forkNext := config.forkSession }

/-- Translated from src/claude/sdk-backend.ts, SDKBackend.setSessionId. -/
def setSessionId (sessionId : Option String) (s : SDKBackendState) : SDKBackendState :=
  { s with currentSessionId := sessionId }

/-- Translated from src/claude/sdk-backend.ts, SDKBackend.setForkSession. -/
def setForkSession (fork : Bool) (s : SDKBackendState) : SDKBackendState :=
  { s with forkNext := fork }

/-- Translated from src/claude/backend.ts, ClaudeBackend.setMode (the backend
copy of the mode). -/
def backendSetMode (mode : PermissionMode) (s : SDKBackendState) : SDKBackendState :=
  { s with mode := mode }

/-- Modelled from the spec: the backend mutator for the working directory (spec
section 3, RuntimeConfig: each field has an explicit mutator). The method is
declared on the backend outside the sources available here; the manager calls
it and then also assigns the same shared config field. -/
def setDirectory (directory : String) (s : SDKBackendState) : SDKBackendState :=
  { s with config := { s.config with directory := directory } }

/-- Modelled from the spec: the backend mutator for the model identifier (spec
section 3, RuntimeConfig: each field has an explicit mutator). -/
def setModel (model : String) (s : SDKBackendState) : SDKBackendState :=
  { s with config := { s.config with model := model } }

/-- Modelled from the spec: the backend mutator for the agent display name
(spec section 3, RuntimeConfig: each field has an explicit mutator). -/
def setAgentName (name : String) (s : SDKBackendState) : SDKBackendState :=
  { s with config := { s.config with agentName := name } }

/-- A content block of an assistant message, as the query loop reads it. -/
inductive ContentBlock where
  | text (t : String)
  | toolUse (name : String)
  | otherBlock
  deriving DecidableEq, Repr

/-- A message yielded by the SDK async generator, restricted to the shapes the
query loop distinguishes. -/
inductive SDKMessage where
  | assistant (content : List ContentBlock)
  | result
  | systemInit (sessionId : String)
  | systemOther
  | otherMsg
  deriving DecidableEq, Repr

/-- Accumulator of the query message loop: the backend state (the instance
fields the loop mutates) plus the local responseText and toolsUsed. -/
structure QueryLoopState where
  backend : SDKBackendState
  responseText : String
  toolsUsed : List String
  deriving DecidableEq, Repr

/-- Translated from src/claude/sdk-backend.ts: one content block of an
assistant message (text is accumulated, tool names collected). -/
def stepBlock (acc : String × List String) (b : ContentBlock) : String × List String :=
  match b with
  | .text t => (acc.1 ++ t, acc.2)
  | .toolUse n => (acc.1, acc.2 ++ [n])
  | .otherBlock => acc

/-- Translated from src/claude/sdk-backend.ts: one iteration of the query
message loop; a system init message captures the session id. -/
def stepMessage (st : QueryLoopState) (m : SDKMessage) : QueryLoopState :=
  match m with
  | .assistant content =>
      let acc := content.foldl stepBlock (st.responseText, st.toolsUsed)
      { st with responseText := acc.1, toolsUsed := acc.2 }
  | .systemInit sid =>
      { st with backend := { st.backend with currentSessionId := some sid } }
  | .result => st
  | .systemOther => st
  | .otherMsg => st

/-- The response record the backend query returns (src/claude/backend.ts,
ClaudeResponse). -/
structure ClaudeResponse where
  text : String
  toolsUsed : Option (List String)
  error : Option String
  deriving DecidableEq, Repr

/-- Models the JavaScript String.prototype.includes call: some offset of the
string starts with the pattern. -/
def strContains (s pat : String) : Bool :=
  (List.range (s.length + 1)).any fun i => (s.data.drop i).take pat.data.length == pat.data

/-- Translated from src/claude/sdk-backend.ts: the error-message pattern that
identifies a session-resume failure. -/
def isSessionResumeFailure (msg : String) : Bool :=
  strContains msg "process exited with code"

/-- Translated from src/claude/sdk-backend.ts: the reply returned when a
session resume fails. -/
def sessionResumeFailureReply : String :=
  "Failed to resume session (sessions are tied to the directory they were created in). Please send your message again to start a new session."

/-- Translated from src/claude/sdk-backend.ts: the error returned when the
Claude Code executable is not found. -/
def claudeNotFoundError : String :=
  "Claude Code executable not found. Install it with: npm install -g @anthropic-ai/claude-code"

/-- The environment one call to SDKBackend.query runs in: whether the Claude
Code executable was found, the messages the SDK generator yields (in order),
and, when the call or the iteration throws, the error message it throws with
after those messages. -/
structure QueryEnv where
  available : Bool
  messages : List SDKMessage
  failure : Option String
  deriving DecidableEq, Repr

/-- Translated from src/claude/sdk-backend.ts, SDKBackend.query, the block that
adds the resume and fork options: the fork flag is reset inside the branch that
resumes a session, before the SDK call. -/
def forkConsume (s : SDKBackendState) : SDKBackendState :=
  if s.currentSessionId.isSome then
    (if s.forkNext then { s with forkNext := false } else s)
  else s

/-- Translated from src/claude/sdk-backend.ts, SDKBackend.query: the iteration
over the messages the SDK generator yields. -/
def queryLoop (msgs : List SDKMessage) (s1 : SDKBackendState) : QueryLoopState :=
  msgs.foldl stepMessage { backend := s1, responseText := "", toolsUsed := [] }

/-- Translated from src/claude/sdk-backend.ts, SDKBackend.query: the state
effects and the response of one query. The fork flag is consumed before the
SDK call; the message loop then runs; a thrown error is classified as a
session-resume failure by its message content when a session id is set at
catch time. -/
def SDKBackend_query (env : QueryEnv) (s : SDKBackendState) :
    SDKBackendState × ClaudeResponse :=
  if !env.available then
    (s, { text := "", toolsUsed := none, error := some claudeNotFoundError })
  else
    let loopEnd := queryLoop env.messages (forkConsume s)
    match env.failure with
    | none =>
        (loopEnd.backend,
         { text := if loopEnd.responseText = "" then "No response generated."
             else loopEnd.responseText,
           toolsUsed := if loopEnd.toolsUsed = [] then none else some loopEnd.toolsUsed,
           error := none })
    | some err =>
        if isSessionResumeFailure err ∧ loopEnd.backend.currentSessionId.isSome then
          ({ loopEnd.backend with currentSessionId := none },
           { text := "", toolsUsed := none, error := some sessionResumeFailureReply })
        else
          (loopEnd.backend, { text := "", toolsUsed := none, error := some err })

/-- The message loop only ever captures a session id and accumulates text and
tool names: it never changes the configuration, the mode or the fork flag, and
it never clears a session id. -/
theorem foldl_stepMessage_preserves (msgs : List SDKMessage) (st : QueryLoopState) :
    (msgs.foldl stepMessage st).backend.forkNext = st.backend.forkNext ∧
    (msgs.foldl stepMessage st).backend.config = st.backend.config ∧
    (msgs.foldl stepMessage st).backend.mode = st.backend.mode ∧
    (st.backend.currentSessionId.isSome = true →
      (msgs.foldl stepMessage st).backend.currentSessionId.isSome = true) := by
  induction msgs generalizing st with
  | nil => exact ⟨rfl, rfl, rfl, fun h => h⟩
  | cons m ms ih =>
      have hstep : (stepMessage st m).backend.forkNext = st.backend.forkNext ∧
          (stepMessage st m).backend.config = st.backend.config ∧
          (stepMessage st m).backend.mode = st.backend.mode ∧
          (st.backend.currentSessionId.isSome = true →
            (stepMessage st m).backend.currentSessionId.isSome = true) := by
        cases m <;> simp [stepMessage]
      obtain ⟨h1, h2, h3, h4⟩ := hstep
      obtain ⟨g1, g2, g3, g4⟩ := ih (stepMessage st m)
      exact ⟨by rw [List.foldl_cons, g1, h1], by rw [List.foldl_cons, g2, h2],
        by rw [List.foldl_cons, g3, h3],
        fun h => by rw [List.foldl_cons] at *; exact g4 (h4 h)⟩

/-- Models the JavaScript String.prototype.toLowerCase call, character by
character (the command keywords being matched are ASCII). -/
def jsToLowerCase (s : String) : String :=
  String.mk (s.data.map Char.toLower)

/-- Models the JavaScript s.slice(0, n) call. -/
def jsSlice (s : String) (n : Nat) : String :=
  String.mk (s.data.take n)

/-- Models JavaScript template interpolation of a boolean. -/
def boolString (b : Bool) : String :=
  if b then "true" else "false"

/-- Models JavaScript template interpolation of a permission mode (the SDK mode
values are the strings of src/types.ts, PermissionModeSchema). -/
def modeName (m : PermissionMode) : String :=
  match m with
  | .default => "default"
  | .acceptEdits => "acceptEdits"
  | .bypassPermissions => "bypassPermissions"
  | .plan => "plan"
  | .dontAsk => "dontAsk"

/-- Translated from src/conversation/manager.ts: the 500-character preview used
when displaying a prompt. -/
def promptPreview (t : String) : String :=
  jsSlice t 500 ++ (if 500 < t.length then "..." else "")

/-- The external collaborators the conversation manager consults: filesystem
checks, path resolution, the model-shorthand resolver, and the config-file
helpers, plus the permission registry size shown by /status. -/
structure Deps where
  resolvePath : String → String
  pathExists : String → Bool
  statIsDirectory : String → Option Bool
  resolveModelShorthand : String → Option String
  availableModels : List String
  modelShorthand : String → Option String
  localConfigPath : String → String
  saveConfigResult : Except String String
  generateTemplate : List String → String
  loadedConfigJson : Option String
  pendingCount : Nat

/-- State of the ConversationManager (src/conversation/manager.ts): the backend
it owns and the conversation history. The history (ConversationHistory, a
module not among the available sources) is modelled from the spec, section 4.1
HistoryLog: an insertion-ordered list of turns that clear() empties. -/
structure ManagerState where
  backend : SDKBackendState
  history : List String
  deriving DecidableEq, Repr

/-- Translated from src/conversation/manager.ts, ConversationManager.setMode:
assign the shared config field and the backend copy. -/
def setMode (m : PermissionMode) (s : ManagerState) : ManagerState :=
  { s with backend :=
      { s.backend with config := { s.backend.config with mode := m }, mode := m } }

/-- Translated from src/conversation/manager.ts,
ConversationManager.handleSystemPromptCommand. -/
def handleSystemPromptCommand (args : String) (s : ManagerState) :
    ManagerState × String :=
  if args = "" then
    match s.backend.config.systemPrompt, s.backend.config.systemPromptAppend with
    | some p, _ => (s, "*Current system prompt:*\n\n" ++ promptPreview p)
    | none, some a => (s, "*System prompt append:*\n\n" ++ promptPreview a)
    | none, none => (s, "Using default Claude Code system prompt.")
  else if jsToLowerCase args = "clear" ∨ jsToLowerCase args = "reset" then
    let curr := s.backend.currentSessionId
    let s1 := if curr.isSome then
        { s with backend := setSessionId none s.backend, history := [] }
      else s
    let s2 := { s1 with backend :=
      { s1.backend with config := setSystemPrompt none s1.backend.config } }
    (s2, "✓ System prompt reset to default." ++
      (if curr.isSome then
        "\n\n⚠️ Session cleared. A new session will start with your next message."
      else ""))
  else
    let curr := s.backend.currentSessionId
    let s1 := if curr.isSome then
        { s with backend := setSessionId none s.backend, history := [] }
      else s
    let s2 := { s1 with backend :=
      { s1.backend with config := setSystemPrompt (some args) s1.backend.config } }
    (s2, "✓ System prompt set (" ++ toString args.length ++ " chars)." ++
      (if curr.isSome then
        "\n\n⚠️ Session cleared. A new session will start with your next message."
      else ""))

/-- Translated from src/conversation/manager.ts,
ConversationManager.handlePromptAppendCommand. -/
def handlePromptAppendCommand (args : String) (s : ManagerState) :
    ManagerState × String :=
  if args = "" then
    match s.backend.config.systemPromptAppend with
    | some a => (s, "*Current prompt append:*\n\n" ++ promptPreview a)
    | none => (s, "No text appended to system prompt.")
  else if jsToLowerCase args = "clear" ∨ jsToLowerCase args = "reset" then
    let curr := s.backend.currentSessionId
    let s1 := if curr.isSome then
        { s with backend := setSessionId none s.backend, history := [] }
      else s
    let s2 := { s1 with backend :=
      { s1.backend with config := setSystemPromptAppend none s1.backend.config } }
    (s2, "✓ Prompt append cleared." ++
      (if curr.isSome then
        "\n\n⚠️ Session cleared. A new session will start with your next message."
      else ""))
  else
    let curr := s.backend.currentSessionId
    let s1 := if curr.isSome then
        { s with backend := setSessionId none s.backend, history := [] }
      else s
    let s2 := { s1 with backend :=
      { s1.backend with config := setSystemPromptAppend (some args) s1.backend.config } }
    (s2, "✓ Text will be appended to default system prompt (" ++
      toString args.length ++ " chars)." ++
      (if curr.isSome then
        "\n\n⚠️ Session cleared. A new session will start with your next message."
      else ""))

/-- Translated from src/conversation/manager.ts,
ConversationManager.handleSessionCommand. -/
def handleSessionCommand (args : String) (s : ManagerState) :
    ManagerState × String :=
  if args = "" then
    match s.backend.currentSessionId with
    | some id => (s, "*Current Session:*\n\n`" ++ id ++
        "`\n\nUse this ID with `--resume` to continue this conversation later.")
    | none => (s, "No active session yet. Send a message to Claude to start a session.")
  else if jsToLowerCase args = "clear" ∨ jsToLowerCase args = "new" then
    ({ s with backend := setSessionId none s.backend, history := [] },
     "✓ Session cleared. A new session will be started on the next message.")
  else
    ({ s with backend := setSessionId (some args) s.backend },
     "✓ Session set to: `" ++ args ++ "`\n\nNext message will resume this session.")

/-- Translated from src/conversation/manager.ts,
ConversationManager.handleForkCommand. -/
def handleForkCommand (s : ManagerState) : ManagerState × String :=
  match s.backend.currentSessionId with
  | none =>
      (s, "❌ No active session to fork. Start a conversation first, then use /fork to branch it.")
  | some id =>
      ({ s with backend := setForkSession true s.backend },
       "✓ Fork enabled for session `" ++ id ++
         "`.\n\nYour next message will create a new branch from this session. The original session remains unchanged.")

/-- Translated from src/conversation/manager.ts,
ConversationManager.handleDirectoryCommand. Path expansion (home-relative
shorthand and resolution) happens through the os/path collaborators, modelled
by Deps.resolvePath; existsSync and statSync by Deps.pathExists and
Deps.statIsDirectory (none modelling a thrown stat error). -/
def handleDirectoryCommand (deps : Deps) (args : String) (s : ManagerState) :
    ManagerState × String :=
  if args = "" then
    (s, "📁 Working directory: `" ++ s.backend.config.directory ++ "`")
  else
    let targetPath := deps.resolvePath args
    if deps.pathExists targetPath = false then
      (s, "❌ Directory not found: `" ++ targetPath ++ "`")
    else
      match deps.statIsDirectory targetPath with
      | none => (s, "❌ Cannot access path: `" ++ targetPath ++ "`")
      | some false => (s, "❌ Path is not a directory: `" ++ targetPath ++ "`")
      | some true =>
          let curr := s.backend.currentSessionId
          let s1 := if curr.isSome then
              { s with backend := setSessionId none s.backend, history := [] }
            else s
          let s2 := { s1 with backend := setDirectory targetPath s1.backend }
          (s2, "✓ Working directory changed to: `" ++ targetPath ++ "`" ++
            (if curr.isSome then
              "\n\n⚠️ Previous session was cleared (sessions are tied to their original directory). A new session will start with your next message."
            else ""))

/-- Translated from src/conversation/manager.ts,
ConversationManager.handleModelCommand. The shorthand resolver (declared on the
backend, outside the available sources) is the external resolver collaborator
of spec section 4.3, modelled by Deps.resolveModelShorthand. -/
def handleModelCommand (deps : Deps) (args : String) (s : ManagerState) :
    ManagerState × String :=
  if args = "" then
    (s, "🤖 Current model: `" ++ s.backend.config.model ++
      "`\n\nUse /models to see available models.\nShorthands: opus, sonnet, haiku, opus-4.5, sonnet-4, etc.")
  else
    let requestedInput := jsTrim args
    match deps.resolveModelShorthand requestedInput with
    | none =>
        (s, "❌ Unknown model: `" ++ requestedInput ++
          "`\n\nUse /models to see available models.\nShorthands: opus, sonnet, haiku, opus-4.5, sonnet-4, etc.")
    | some resolvedModel =>
        let curr := s.backend.currentSessionId
        let s1 := if curr.isSome then
            { s with backend := setSessionId none s.backend, history := [] }
          else s
        let s2 := { s1 with backend := setModel resolvedModel s1.backend }
        (s2, (if requestedInput ≠ resolvedModel then
                "✓ Model changed to: `" ++ resolvedModel ++ "` (from \"" ++
                  requestedInput ++ "\")"
              else "✓ Model changed to: `" ++ resolvedModel ++ "`") ++
          (if curr.isSome then
            "\n\n⚠️ Previous session was cleared. A new session will start with your next message."
          else ""))

/-- Translated from src/conversation/manager.ts,
ConversationManager.handleModelsCommand (display only). -/
def handleModelsCommand (deps : Deps) (s : ManagerState) : ManagerState × String :=
  let modelList := String.intercalate "\n" (deps.availableModels.map fun m =>
    let displayName := match deps.modelShorthand m with
      | some sh => sh ++ " (" ++ m ++ ")"
      | none => m
    if m = s.backend.config.model then "• `" ++ displayName ++ "` ✓ (current)"
    else "• `" ++ displayName ++ "`")
  (s, "*Available Models:*\n\n" ++ modelList ++
    "\n\nUse `/model <shorthand>` to switch (e.g., `/model opus-4-5`).")

/-- Translated from src/conversation/manager.ts,
ConversationManager.handleNameCommand. -/
def handleNameCommand (args : String) (s : ManagerState) : ManagerState × String :=
  if args = "" then
    (s, "🤖 Agent name: *" ++ s.backend.config.agentName ++ "*")
  else
    let newName := jsTrim args
    if newName.length = 0 then
      (s, "❌ Agent name cannot be empty.")
    else
      ({ s with backend := setAgentName newName s.backend },
       "✓ Agent name changed to: *" ++ newName ++ "*")

/-- Translated from src/conversation/manager.ts: the valid CLAUDE.md setting
sources. -/
def validSources : List String := ["user", "project", "local"]

/-- Translated from src/conversation/manager.ts,
ConversationManager.handleClaudeMdCommand. -/
def handleClaudeMdCommand (args : String) (s : ManagerState) :
    ManagerState × String :=
  if args = "" then
    (s, match s.backend.config.settingSources with
        | some sources =>
            if 0 < sources.length then
              "*CLAUDE.md sources:* " ++ String.intercalate ", " sources
            else
              "No CLAUDE.md sources configured. Use `/claudemd user,project` to enable."
        | none =>
            "No CLAUDE.md sources configured. Use `/claudemd user,project` to enable.")
  else if jsToLowerCase args = "clear" ∨ jsToLowerCase args = "none" then
    ({ s with backend :=
        { s.backend with config := setSettingSources none s.backend.config } },
     "✓ CLAUDE.md loading disabled.")
  else
    let requestedSources := ((args.splitOn ",").map fun x =>
      jsToLowerCase (jsTrim x)).filter fun x => decide (0 < x.length)
    let invalid := requestedSources.filter fun x => !(validSources.contains x)
    if invalid.length ≠ 0 then
      (s, "❌ Invalid sources: " ++ String.intercalate ", " invalid ++
        "\n\nValid sources: user, project, local")
    else
      ({ s with backend :=
          { s.backend with config := setSettingSources (some requestedSources) s.backend.config } },
       "✓ CLAUDE.md sources set to: " ++ String.intercalate ", " requestedSources)

/-- Translated from src/conversation/manager.ts: the prompt-status line shared
by getConfigDisplay and getStatusMessage. -/
def promptStatusOf (c : Config) : String :=
  match c.systemPrompt with
  | some p => "custom (" ++ toString p.length ++ " chars)"
  | none =>
      match c.systemPromptAppend with
      | some a => "default + append (" ++ toString a.length ++ " chars)"
      | none => "default"

/-- Translated from src/conversation/manager.ts: the CLAUDE.md status line. -/
def claudeMdStatusOf (c : Config) : String :=
  match c.settingSources with
  | some l => if 0 < l.length then String.intercalate ", " l else "disabled"
  | none => "disabled"

/-- Translated from src/conversation/manager.ts,
ConversationManager.getConfigDisplay. -/
def getConfigDisplay (s : ManagerState) : String :=
  let c := s.backend.config
  "*Current Configuration:*\n\n*Core Settings:*\n• whitelist: " ++
    String.intercalate ", " c.whitelist ++
    "\n• directory: `" ++ c.directory ++ "`\n• mode: " ++ modeName c.mode ++
    "\n• model: " ++ c.model ++
    "\n\n*Message Processing:*\n• processMissed: " ++ boolString c.processMissed ++
    "\n• missedThresholdMins: " ++ toString c.missedThresholdMins ++
    "\n• maxTurns: " ++ (match c.maxTurns with
      | some n => toString n
      | none => "unlimited") ++
    "\n\n*Agent:*\n• agentName: " ++ c.agentName ++
    "\n• verbose: " ++ boolString c.verbose ++
    "\n\n*Prompts & Settings:*\n• systemPrompt: " ++ promptStatusOf c ++
    "\n• settingSources: " ++ claudeMdStatusOf c ++
    "\n\nUse `/config save` to save to file."

/-- Translated from src/conversation/manager.ts,
ConversationManager.getStatusMessage. -/
def getStatusMessage (deps : Deps) (s : ManagerState) : String :=
  let c := s.backend.config
  let sessionStatus := match s.backend.currentSessionId with
    | some id => "`" ++ id ++ "`"
    | none => "none (new session)"
  "*Agent Status:*\n\n🤖 Agent: *" ++ c.agentName ++
    "*\n📁 Working directory: `" ++ c.directory ++
    "`\n🔐 Mode: " ++ modeName c.mode ++
    "\n🧠 Model: " ++ c.model ++
    "\n🔗 Session: " ++ sessionStatus ++
    "\n💬 Conversation length: " ++ toString s.history.length ++ " messages" ++
    "\n⏳ Pending permissions: " ++ toString deps.pendingCount ++
    "\n📝 System prompt: " ++ promptStatusOf c ++
    "\n📄 CLAUDE.md sources: " ++ claudeMdStatusOf c

/-- Translated from src/conversation/manager.ts,
ConversationManager.getHelpMessage. -/
def getHelpMessage : String :=
  "*Available Commands:*\n\n*Session & Directory:*\n/clear - Clear conversation history\n/status - Show agent status\n/session - Show current session ID\n/session <id> - Set session ID to resume\n/session clear - Start a new session\n/fork - Fork current session (branch off)\n/cd - Show current working directory\n/cd <path> - Change working directory\n/help - Show this help message\n\n*Agent & Model:*\n/name - Show current agent name\n/name <name> - Change agent name\n/model - Show current model\n/model <name> - Switch to a different model\n/models - List all available models\n\n*Permission Modes:*\n/mode - Show current permission mode\n/plan - Switch to plan mode (read-only)\n/default - Switch to default mode (asks for permission)\n/acceptEdits - Auto-accept file edits\n/bypass - Bypass all permissions (dangerous!)\n/dontAsk - Deny if not pre-approved\n\n*System Prompt:*\n/prompt - Show current system prompt\n/prompt <text> - Set custom system prompt\n/prompt clear - Reset to default\n/promptappend <text> - Append to default prompt\n/promptappend clear - Clear append\n\n*CLAUDE.md Settings:*\n/claudemd - Show current sources\n/claudemd user,project - Load user & project CLAUDE.md\n/claudemd clear - Disable CLAUDE.md loading\n\n*Configuration File:*\n/config - Show current runtime config\n/config path - Show config file location\n/config save - Save current config to file\n/config generate - Generate a config template\n/config reload - View config file contents\n\n*Valid CLAUDE.md sources:* user, project, local"

/-- Translated from src/conversation/manager.ts,
ConversationManager.handleConfigCommand. -/
def handleConfigCommand (deps : Deps) (args : String) (s : ManagerState) :
    ManagerState × String :=
  let subcommand := jsToLowerCase (jsTrim args)
  let configPath := deps.localConfigPath s.backend.config.directory
  if subcommand = "" ∨ subcommand = "show" ∨ subcommand = "list" then
    (s, getConfigDisplay s)
  else if subcommand = "path" then
    (s, "📁 Config file path:\n`" ++ configPath ++ "`\n\n" ++
      (if deps.pathExists configPath then "✓ File exists" else "⚠️ File does not exist"))
  else if subcommand = "save" then
    match deps.saveConfigResult with
    | .ok savedPath => (s, "✓ Configuration saved to:\n`" ++ savedPath ++ "`")
    | .error errorMsg => (s, "❌ Failed to save config: " ++ errorMsg)
  else if subcommand = "generate" ∨ subcommand = "template" then
    (s, "*Config template:*\n\n```json\n" ++
      deps.generateTemplate s.backend.config.whitelist ++
      "\n```\n\nSave this to:\n`" ++ configPath ++ "`")
  else if subcommand = "reload" then
    match deps.loadedConfigJson with
    | none =>
        (s, "⚠️ No config file found at:\n`" ++ configPath ++
          "`\n\nUse `/config generate` to create a template.")
    | some configJson =>
        (s, "*Config file contents:*\n\n```json\n" ++ jsSlice configJson 1500 ++
          (if 1500 < configJson.length then "\n..." else "") ++
          "\n```\n\n⚠️ Restart the agent to apply config file changes.")
  else
    (s, "Unknown config command: " ++ subcommand ++
      "\n\n*Available /config commands:*\n/config - Show current runtime configuration\n/config show - Same as above\n/config path - Show config file location\n/config save - Save current config to file\n/config generate - Generate a config template\n/config reload - View config file contents")

/-- Translated from src/conversation/manager.ts, the switch of
ConversationManager.handleCommand, over the already-parsed command name and
argument text (parseCommand, from a module outside the available sources,
supplies the lowercased name and the raw argument text per spec section 4.5). -/
def handleCommand (deps : Deps) (cmd args : String) (s : ManagerState) :
    ManagerState × String :=
  if cmd = "clear" then
    ({ s with history := [] }, "✓ Conversation cleared.")
  else if cmd = "readonly" ∨ cmd = "plan" then
    (setMode .plan s, "✓ Switched to *plan* mode. Claude can only read files.")
  else if cmd = "normal" ∨ cmd = "default" then
    (setMode .default s,
     "✓ Switched to *default* mode. Claude will ask permission for writes.")
  else if cmd = "acceptedits" ∨ cmd = "accept-edits" then
    (setMode .acceptEdits s,
     "✓ Switched to *acceptEdits* mode. Claude can edit files without asking.")
  else if cmd = "yolo" ∨ cmd = "bypass" ∨ cmd = "bypasspermissions" then
    (setMode .bypassPermissions s,
     "⚠️ Switched to *bypassPermissions* mode. Claude has full access without confirmation!")
  else if cmd = "dontask" ∨ cmd = "dont-ask" then
    (setMode .dontAsk s,
     "✓ Switched to *dontAsk* mode. Claude will not prompt, denies if not pre-approved.")
  else if cmd = "mode" then
    (s, "Current mode: *" ++ modeName s.backend.config.mode ++ "*")
  else if cmd = "help" then
    (s, getHelpMessage)
  else if cmd = "status" then
    (s, getStatusMessage deps s)
  else if cmd = "systemprompt" ∨ cmd = "prompt" then
    handleSystemPromptCommand args s
  else if cmd = "promptappend" ∨ cmd = "appendprompt" then
    handlePromptAppendCommand args s
  else if cmd = "claudemd" ∨ cmd = "settings" then
    handleClaudeMdCommand args s
  else if cmd = "session" then
    handleSessionCommand args s
  else if cmd = "fork" then
    handleForkCommand s
  else if cmd = "cd" ∨ cmd = "dir" ∨ cmd = "directory" then
    handleDirectoryCommand deps args s
  else if cmd = "model" then
    handleModelCommand deps args s
  else if cmd = "models" then
    handleModelsCommand deps s
  else if cmd = "name" ∨ cmd = "agentname" ∨ cmd = "agent-name" then
    handleNameCommand args s
  else if cmd = "config" then
    handleConfigCommand deps args s
  else
    (s, "Unknown command: /" ++ cmd ++ "\n\nType /help for available commands.")

/-- The command names the switch of handleCommand recognizes. -/
def knownCommands : List String :=
  ["clear", "readonly", "plan", "normal", "default", "acceptedits", "accept-edits",
   "yolo", "bypass", "bypasspermissions", "dontask", "dont-ask", "mode", "help",
   "status", "systemprompt", "prompt", "promptappend", "appendprompt", "claudemd",
   "settings", "session", "fork", "cd", "dir", "directory", "model", "models",
   "name", "agentname", "agent-name", "config"]

/-- A concrete configuration used by the concrete check theorems. -/
def cexConfig : Config :=
  { whitelist := ["+1000000"], directory := "/home/user/project", mode := .default,
    model := "claude-sonnet-4-5", processMissed := false, missedThresholdMins := 5,
    maxTurns := none, agentName := "Agent", verbose := false, systemPrompt := none,
    systemPromptAppend := none, settingSources := none, forkSession := false,
    resumeSessionId := none }

/-- Concrete collaborators where the filesystem accepts every path and the
resolver accepts every shorthand. -/
def cexDeps : Deps :=
  { resolvePath := fun p => p, pathExists := fun _ => true,
    statIsDirectory := fun _ => some true, resolveModelShorthand := fun m => some m,
    availableModels := [], modelShorthand := fun _ => none,
    localConfigPath := fun d => d ++ "/config.json",
    saveConfigResult := .ok "/tmp/config.json",
    generateTemplate := fun _ => "", loadedConfigJson := none, pendingCount := 0 }

/-- A reachable manager state with no session id but a non-empty history (a
query that failed before a session was minted leaves the state in this shape). -/
def historyOnlyState : ManagerState :=
  { backend := { config := cexConfig, mode := .default, currentSessionId := none,
                 forkNext := false },
    history := ["hello"] }

/-- A manager state with an active session and a non-empty history. -/
def sessState : ManagerState :=
  { backend := { config := cexConfig, mode := .default,
                 currentSessionId := some "sess-1", forkNext := false },
    history := ["hi", "there"] }

/-- A backend state with an active session and the fork flag set. -/
def sessBackend : SDKBackendState :=
  { config := cexConfig, mode := .default, currentSessionId := some "sess-1",
    forkNext := true }

/-- C2 counterexample: in a state with no session id but a non-empty history,
a directory change with a valid argument leaves the history untouched, so the
history is not always empty after the command. -/
theorem directoryCommand_keeps_history_without_session :
    (handleDirectoryCommand cexDeps "/tmp/proj" historyOnlyState).1.history = ["hello"] ∧
    (handleDirectoryCommand cexDeps "/tmp/proj" historyOnlyState).1.history ≠ [] := by
  decide

/-- C2 (amended): after a directory, model, system-prompt or prompt-append
command with a valid argument the session id is none; the history is cleared
when a session id was set and left unchanged when none was set; mode changes
leave both the session id and the history unchanged. -/
theorem invalidation_commands_spec :
    (∀ (deps : Deps) (args : String) (s : ManagerState),
      args ≠ "" →
      deps.pathExists (deps.resolvePath args) = true →
      deps.statIsDirectory (deps.resolvePath args) = some true →
      (handleDirectoryCommand deps args s).1.backend.currentSessionId = none ∧
      (s.backend.currentSessionId.isSome = true →
        (handleDirectoryCommand deps args s).1.history = []) ∧
      (s.backend.currentSessionId = none →
        (handleDirectoryCommand deps args s).1.history = s.history)) ∧
    (∀ (deps : Deps) (args : String) (s : ManagerState) (m : String),
      args ≠ "" →
      deps.resolveModelShorthand (jsTrim args) = some m →
      (handleModelCommand deps args s).1.backend.currentSessionId = none ∧
      (s.backend.currentSessionId.isSome = true →
        (handleModelCommand deps args s).1.history = []) ∧
      (s.backend.currentSessionId = none →
        (handleModelCommand deps args s).1.history = s.history)) ∧
    (∀ (args : String) (s : ManagerState),
      args ≠ "" →
      (handleSystemPromptCommand args s).1.backend.currentSessionId = none ∧
      (s.backend.currentSessionId.isSome = true →
        (handleSystemPromptCommand args s).1.history = []) ∧
      (s.backend.currentSessionId = none →
        (handleSystemPromptCommand args s).1.history = s.history)) ∧
    (∀ (args : String) (s : ManagerState),
      args ≠ "" →
      (handlePromptAppendCommand args s).1.backend.currentSessionId = none ∧
      (s.backend.currentSessionId.isSome = true →
        (handlePromptAppendCommand args s).1.history = []) ∧
      (s.backend.currentSessionId = none →
        (handlePromptAppendCommand args s).1.history = s.history)) ∧
    (∀ (m : PermissionMode) (s : ManagerState),
      (setMode m s).backend.currentSessionId = s.backend.currentSessionId ∧
      (setMode m s).history = s.history) := by
  refine ⟨?_, ?_, ?_, ?_, fun m s => ⟨rfl, rfl⟩⟩
  · intro deps args s hargs hex hdir
    rcases hcur : s.backend.currentSessionId with _ | sid <;>
      refine ⟨?_, ?_, ?_⟩ <;>
        simp [handleDirectoryCommand, hargs, hex, hdir, hcur, setSessionId, setDirectory]
  · intro deps args s m hargs hres
    rcases hcur : s.backend.currentSessionId with _ | sid <;>
      refine ⟨?_, ?_, ?_⟩ <;>
        simp [handleModelCommand, hargs, hres, hcur, setSessionId, setModel]
  · intro args s hargs
    rcases hcur : s.backend.currentSessionId with _ | sid <;>
      refine ⟨?_, ?_, ?_⟩ <;>
        (unfold handleSystemPromptCommand
         rw [if_neg hargs]
         split_ifs <;>
           simp [hcur, setSessionId, setSystemPrompt])
  · intro args s hargs
    rcases hcur : s.backend.currentSessionId with _ | sid <;>
      refine ⟨?_, ?_, ?_⟩ <;>
        (unfold handlePromptAppendCommand
         rw [if_neg hargs]
         split_ifs <;>
           simp [hcur, setSessionId, setSystemPromptAppend])

/-- Witness for C2: at a state with an active session, each command clears the
session and the history, and a mode change leaves both alone. -/
theorem invalidation_commands_spec_witness :
    (handleDirectoryCommand cexDeps "/tmp/proj" sessState).1.backend.currentSessionId = none ∧
    (handleDirectoryCommand cexDeps "/tmp/proj" sessState).1.history = [] ∧
    (handleModelCommand cexDeps "opus" sessState).1.backend.currentSessionId = none ∧
    (handleModelCommand cexDeps "opus" sessState).1.history = [] ∧
    (handleSystemPromptCommand "be brief" sessState).1.backend.currentSessionId = none ∧
    (handleSystemPromptCommand "be brief" sessState).1.history = [] ∧
    (handlePromptAppendCommand "be brief" sessState).1.backend.currentSessionId = none ∧
    (handlePromptAppendCommand "be brief" sessState).1.history = [] ∧
    (setMode .plan sessState).backend.currentSessionId = some "sess-1" ∧
    (setMode .plan sessState).history = ["hi", "there"] :=
  ⟨(invalidation_commands_spec.1 cexDeps "/tmp/proj" sessState (by decide) rfl rfl).1,
   (invalidation_commands_spec.1 cexDeps "/tmp/proj" sessState (by decide) rfl rfl).2.1 rfl,
   (invalidation_commands_spec.2.1 cexDeps "opus" sessState "opus" (by decide) rfl).1,
   (invalidation_commands_spec.2.1 cexDeps "opus" sessState "opus" (by decide) rfl).2.1 rfl,
   (invalidation_commands_spec.2.2.1 "be brief" sessState (by decide)).1,
   (invalidation_commands_spec.2.2.1 "be brief" sessState (by decide)).2.1 rfl,
   (invalidation_commands_spec.2.2.2.1 "be brief" sessState (by decide)).1,
   (invalidation_commands_spec.2.2.2.1 "be brief" sessState (by decide)).2.1 rfl,
   (invalidation_commands_spec.2.2.2.2 .plan sessState).1,
   (invalidation_commands_spec.2.2.2.2 .plan sessState).2⟩

theorem forkConsume_forkNext (s : SDKBackendState) :
    (forkConsume s).forkNext =
      if s.currentSessionId.isSome then false else s.forkNext := by
  unfold forkConsume
  cases hb : s.currentSessionId.isSome <;> cases hf : s.forkNext <;> simp [hb, hf]

theorem forkConsume_fields (s : SDKBackendState) :
    (forkConsume s).config = s.config ∧ (forkConsume s).mode = s.mode ∧
    (forkConsume s).currentSessionId = s.currentSessionId := by
  unfold forkConsume
  cases hb : s.currentSessionId.isSome <;> cases hf : s.forkNext <;> simp [hb, hf]

theorem queryLoop_preserves (msgs : List SDKMessage) (s1 : SDKBackendState) :
    (queryLoop msgs s1).backend.forkNext = s1.forkNext ∧
    (queryLoop msgs s1).backend.config = s1.config ∧
    (queryLoop msgs s1).backend.mode = s1.mode ∧
    (s1.currentSessionId.isSome = true →
      (queryLoop msgs s1).backend.currentSessionId.isSome = true) :=
  foldl_stepMessage_preserves msgs
    { backend := s1, responseText := "", toolsUsed := [] }

/-- The fork flag after a query with an available executable: consumed exactly
when a session id was set at query time. -/
theorem query_forkNext_eq (env : QueryEnv) (s : SDKBackendState)
    (hav : env.available = true) :
    (SDKBackend_query env s).1.forkNext =
      if s.currentSessionId.isSome then false else s.forkNext := by
  obtain ⟨av, msgs, fl⟩ := env
  simp only at hav
  subst hav
  have hkey : (SDKBackend_query ⟨true, msgs, fl⟩ s).1.forkNext
      = (queryLoop msgs (forkConsume s)).backend.forkNext := by
    rcases fl with _ | err
    · rfl
    · show (if isSessionResumeFailure err ∧
            (queryLoop msgs (forkConsume s)).backend.currentSessionId.isSome then
            ({ (queryLoop msgs (forkConsume s)).backend with currentSessionId := none },
             ({ text := "", toolsUsed := none,
                error := some sessionResumeFailureReply } : ClaudeResponse))
          else ((queryLoop msgs (forkConsume s)).backend,
             ({ text := "", toolsUsed := none, error := some err } : ClaudeResponse))).1.forkNext
          = (queryLoop msgs (forkConsume s)).backend.forkNext
      split
      · rfl
      · rfl
  rw [hkey, (queryLoop_preserves msgs (forkConsume s)).1, forkConsume_forkNext]

/-- C6 counterexample: a fork flag set from startup configuration without a
resume session id survives a query, so the flag is not false after every
query in every state in which it was set. -/
theorem fork_flag_survives_query_without_session :
    (initSDKBackend { cexConfig with forkSession := true }).forkNext = true ∧
    (initSDKBackend { cexConfig with forkSession := true }).currentSessionId = none ∧
    (SDKBackend_query { available := true, messages := [], failure := none }
      (initSDKBackend { cexConfig with forkSession := true })).1.forkNext = true := by
  decide

/-- C6 (amended): the fork directive is rejected with a descriptive error and
no state change when no session id is set; a query with the executable
available and a session id set at query time leaves the fork flag false,
whatever the outcome; a query without an available executable or without a
session id leaves the flag unchanged. -/
theorem fork_command_and_consumption :
    (∀ s : ManagerState, s.backend.currentSessionId = none →
      handleForkCommand s =
        (s, "❌ No active session to fork. Start a conversation first, then use /fork to branch it.")) ∧
    (∀ (env : QueryEnv) (s : SDKBackendState),
      env.available = true → s.currentSessionId.isSome = true →
      (SDKBackend_query env s).1.forkNext = false) ∧
    (∀ (env : QueryEnv) (s : SDKBackendState),
      env.available = false ∨ s.currentSessionId = none →
      (SDKBackend_query env s).1.forkNext = s.forkNext) := by
  refine ⟨?_, ?_, ?_⟩
  · intro s h
    unfold handleForkCommand
    rw [h]
  · intro env s hav hsid
    rw [query_forkNext_eq env s hav, if_pos hsid]
  · intro env s h
    rcases h with hav | hsid
    · obtain ⟨av, msgs, fl⟩ := env
      simp only at hav
      subst hav
      simp [SDKBackend_query]
    · rcases hav : env.available with _ | _
      · obtain ⟨av, msgs, fl⟩ := env
        simp only at hav
        subst hav
        simp [SDKBackend_query]
      · rw [query_forkNext_eq env s hav, if_neg (by simp [hsid])]

/-- Witness for C6: the fork command is rejected without a session; a query
with a session consumes the flag; a query without an available executable
leaves it set. -/
theorem fork_command_and_consumption_witness :
    handleForkCommand historyOnlyState =
      (historyOnlyState,
       "❌ No active session to fork. Start a conversation first, then use /fork to branch it.") ∧
    (SDKBackend_query { available := true, messages := [], failure := none }
      sessBackend).1.forkNext = false ∧
    (SDKBackend_query { available := false, messages := [], failure := none }
      sessBackend).1.forkNext = sessBackend.forkNext :=
  ⟨fork_command_and_consumption.1 historyOnlyState rfl,
   fork_command_and_consumption.2.1 _ sessBackend rfl rfl,
   fork_command_and_consumption.2.2 _ sessBackend (Or.inl rfl)⟩

set_option maxRecDepth 4000 in
/-- C7: a query that throws an error matching the session-resume pattern while
a session id is set clears the session id only, leaves the configuration and
the mode unchanged, and returns the recoverable resend message, which differs
from the thrown error. -/
theorem session_resume_failure_recovery (env : QueryEnv) (s : SDKBackendState)
    (err : String) (hav : env.available = true) (hfail : env.failure = some err)
    (hpat : isSessionResumeFailure err = true)
    (hsid : s.currentSessionId.isSome = true) :
    (SDKBackend_query env s).1.currentSessionId = none ∧
    (SDKBackend_query env s).1.config = s.config ∧
    (SDKBackend_query env s).1.mode = s.mode ∧
    (SDKBackend_query env s).2.error = some sessionResumeFailureReply ∧
    (SDKBackend_query env s).2.text = "" ∧
    sessionResumeFailureReply ≠ err := by
  obtain ⟨av, msgs, fl⟩ := env
  simp only at hav hfail
  subst hav
  subst hfail
  have hne : sessionResumeFailureReply ≠ err := by
    intro he
    rw [← he] at hpat
    exact absurd hpat (by decide)
  have hL := queryLoop_preserves msgs (forkConsume s)
  have hFC := forkConsume_fields s
  have hsid2 : (queryLoop msgs (forkConsume s)).backend.currentSessionId.isSome = true :=
    hL.2.2.2 (by rw [hFC.2.2]; exact hsid)
  have hq : SDKBackend_query ⟨true, msgs, some err⟩ s =
      ({ (queryLoop msgs (forkConsume s)).backend with currentSessionId := none },
       { text := "", toolsUsed := none, error := some sessionResumeFailureReply }) := by
    show (if isSessionResumeFailure err ∧
        (queryLoop msgs (forkConsume s)).backend.currentSessionId.isSome then
        ({ (queryLoop msgs (forkConsume s)).backend with currentSessionId := none },
         ({ text := "", toolsUsed := none,
            error := some sessionResumeFailureReply } : ClaudeResponse))
      else ((queryLoop msgs (forkConsume s)).backend,
         ({ text := "", toolsUsed := none, error := some err } : ClaudeResponse))) = _
    rw [if_pos ⟨hpat, hsid2⟩]
  rw [hq]
  refine ⟨rfl, ?_, ?_, rfl, rfl, hne⟩
  · show (queryLoop msgs (forkConsume s)).backend.config = s.config
    rw [hL.2.1, hFC.1]
  · show (queryLoop msgs (forkConsume s)).backend.mode = s.mode
    rw [hL.2.2.1, hFC.2.1]

/-- A concrete query environment in which the backend call throws a
process-exit error after yielding no messages. -/
def resumeFailEnv : QueryEnv :=
  { available := true, messages := [],
    failure := some "Claude Code process exited with code 1" }

set_option maxRecDepth 4000 in
/-- Witness for C7: a resume of session sess-1 fails with a process-exit error;
the session is cleared, the configuration kept, and the resend message
returned. -/
theorem session_resume_failure_recovery_witness :
    (SDKBackend_query resumeFailEnv sessBackend).1.currentSessionId = none ∧
    (SDKBackend_query resumeFailEnv sessBackend).1.config = sessBackend.config ∧
    (SDKBackend_query resumeFailEnv sessBackend).1.mode = sessBackend.mode ∧
    (SDKBackend_query resumeFailEnv sessBackend).2.error = some sessionResumeFailureReply ∧
    (SDKBackend_query resumeFailEnv sessBackend).2.text = "" ∧
    sessionResumeFailureReply ≠ "Claude Code process exited with code 1" :=
  session_resume_failure_recovery resumeFailEnv sessBackend
    "Claude Code process exited with code 1" rfl rfl (by decide) rfl

/-- C8: every user-input error is answered with a plain-text rejection and
mutates no state: a directory argument that does not exist, a path that is not
a directory, an unrecognized model shorthand, an unknown command name, and an
empty agent name. -/
theorem user_input_errors_no_mutation :
    (∀ (deps : Deps) (args : String) (s : ManagerState), args ≠ "" →
      deps.pathExists (deps.resolvePath args) = false →
      handleDirectoryCommand deps args s =
        (s, "❌ Directory not found: `" ++ deps.resolvePath args ++ "`")) ∧
    (∀ (deps : Deps) (args : String) (s : ManagerState), args ≠ "" →
      deps.pathExists (deps.resolvePath args) = true →
      deps.statIsDirectory (deps.resolvePath args) = some false →
      handleDirectoryCommand deps args s =
        (s, "❌ Path is not a directory: `" ++ deps.resolvePath args ++ "`")) ∧
    (∀ (deps : Deps) (args : String) (s : ManagerState), args ≠ "" →
      deps.resolveModelShorthand (jsTrim args) = none →
      handleModelCommand deps args s =
        (s, "❌ Unknown model: `" ++ jsTrim args ++
          "`\n\nUse /models to see available models.\nShorthands: opus, sonnet, haiku, opus-4.5, sonnet-4, etc.")) ∧
    (∀ (deps : Deps) (cmd args : String) (s : ManagerState), cmd ∉ knownCommands →
      handleCommand deps cmd args s =
        (s, "Unknown command: /" ++ cmd ++ "\n\nType /help for available commands.")) ∧
    (∀ (args : String) (s : ManagerState), args ≠ "" → (jsTrim args).length = 0 →
      handleNameCommand args s = (s, "❌ Agent name cannot be empty.")) := by
  refine ⟨?_, ?_, ?_, ?_, ?_⟩
  · intro deps args s hargs hex
    simp [handleDirectoryCommand, hargs, hex]
  · intro deps args s hargs hex hdir
    simp [handleDirectoryCommand, hargs, hex, hdir]
  · intro deps args s hargs hres
    simp [handleModelCommand, hargs, hres]
  · intro deps cmd args s h
    have hne : ∀ x ∈ knownCommands, cmd ≠ x := fun x hx he => h (he ▸ hx)
    unfold handleCommand
    rw [if_neg (hne "clear" (by decide)),
      if_neg (fun hc => Or.elim hc (hne "readonly" (by decide)) (hne "plan" (by decide))),
      if_neg (fun hc => Or.elim hc (hne "normal" (by decide)) (hne "default" (by decide))),
      if_neg (fun hc => Or.elim hc (hne "acceptedits" (by decide)) (hne "accept-edits" (by decide))),
      if_neg (fun hc => Or.elim hc (hne "yolo" (by decide)) (fun hc2 =>
        Or.elim hc2 (hne "bypass" (by decide)) (hne "bypasspermissions" (by decide)))),
      if_neg (fun hc => Or.elim hc (hne "dontask" (by decide)) (hne "dont-ask" (by decide))),
      if_neg (hne "mode" (by decide)),
      if_neg (hne "help" (by decide)),
      if_neg (hne "status" (by decide)),
      if_neg (fun hc => Or.elim hc (hne "systemprompt" (by decide)) (hne "prompt" (by decide))),
      if_neg (fun hc => Or.elim hc (hne "promptappend" (by decide)) (hne "appendprompt" (by decide))),
      if_neg (fun hc => Or.elim hc (hne "claudemd" (by decide)) (hne "settings" (by decide))),
      if_neg (hne "session" (by decide)),
      if_neg (hne "fork" (by decide)),
      if_neg (fun hc => Or.elim hc (hne "cd" (by decide)) (fun hc2 =>
        Or.elim hc2 (hne "dir" (by decide)) (hne "directory" (by decide)))),
      if_neg (hne "model" (by decide)),
      if_neg (hne "models" (by decide)),
      if_neg (fun hc => Or.elim hc (hne "name" (by decide)) (fun hc2 =>
        Or.elim hc2 (hne "agentname" (by decide)) (hne "agent-name" (by decide)))),
      if_neg (hne "config" (by decide))]
  · intro args s hargs hlen
    simp [handleNameCommand, hargs, hlen]

/-- Witness for C8: each rejection at a concrete input, with the state
unchanged. -/
theorem user_input_errors_no_mutation_witness :
    handleDirectoryCommand { cexDeps with pathExists := fun _ => false }
        "/tmp/does-not-exist" sessState =
      (sessState, "❌ Directory not found: `/tmp/does-not-exist`") ∧
    handleDirectoryCommand { cexDeps with statIsDirectory := fun _ => some false }
        "/etc/passwd" sessState =
      (sessState, "❌ Path is not a directory: `/etc/passwd`") ∧
    handleModelCommand { cexDeps with resolveModelShorthand := fun _ => none }
        "gpt" sessState =
      (sessState, "❌ Unknown model: `gpt`\n\nUse /models to see available models.\nShorthands: opus, sonnet, haiku, opus-4.5, sonnet-4, etc.") ∧
    handleCommand cexDeps "frobnicate" "foo" sessState =
      (sessState, "Unknown command: /frobnicate\n\nType /help for available commands.") ∧
    handleNameCommand "   " sessState = (sessState, "❌ Agent name cannot be empty.") :=
  ⟨user_input_errors_no_mutation.1 _ "/tmp/does-not-exist" sessState (by decide) rfl,
   user_input_errors_no_mutation.2.1 _ "/etc/passwd" sessState (by decide) rfl rfl,
   user_input_errors_no_mutation.2.2.1 _ "gpt" sessState (by decide) rfl,
   user_input_errors_no_mutation.2.2.2.1 cexDeps "frobnicate" "foo" sessState (by decide),
   user_input_errors_no_mutation.2.2.2.2 "   " sessState (by decide) (by decide)⟩

end WCA
